import Mathlib

/-!
Verification of the natural-language-to-SQL pipeline
(`lexer.py`, `syntax_parser.py`, `pipeline.py`).

The Python source is embedded shallowly:

* text is `List Char`; Python character classes (`isdigit`, `isalpha`,
  `isspace`, `lower`, ...) are modelled over ASCII, which covers every
  character the pipeline's keyword and operator tables mention;
* every loop of the source consumes at least one character / token per
  iteration, so loops are embedded as structural recursion on a fuel
  counter initialised to `length + 1` of the data being consumed, which
  can never be exhausted;
* Python exceptions (`ParseError`, `ValueError`, `TypeError`) are
  modelled with an `Except PyErr` result.
-/

/-! ### Python character-level helpers (ASCII fragment) -/

/-- ASCII decimal digit, the ASCII fragment of Python `str.isdigit`. -/
def isPyDigit (c : Char) : Bool := decide ('0' ≤ c ∧ c ≤ '9')

/-- ASCII uppercase letter. -/
def isPyUpper (c : Char) : Bool := decide ('A' ≤ c ∧ c ≤ 'Z')

/-- ASCII lowercase letter. -/
def isPyLowerC (c : Char) : Bool := decide ('a' ≤ c ∧ c ≤ 'z')

/-- ASCII fragment of Python `str.isalpha`. -/
def isPyAlpha (c : Char) : Bool := isPyUpper c || isPyLowerC c

/-- ASCII fragment of Python `str.isalnum`. -/
def isPyAlnum (c : Char) : Bool := isPyAlpha c || isPyDigit c

/-- Python whitespace (`str.isspace` / regex `\s`, ASCII fragment):
space, tab, newline, carriage return, vertical tab, form feed. -/
def isPySpace (c : Char) : Bool :=
  c == ' ' || c == '\t' || c == '\n' || c == '\r' ||
  c == Char.ofNat 11 || c == Char.ofNat 12

/-- ASCII fragment of Python `str.lower`, applied character-wise. -/
def pyLower (c : Char) : Char :=
  if isPyUpper c then Char.ofNat (c.toNat + 32) else c

/-- Python `str.strip()`: drop leading and trailing whitespace. -/
def pyStrip (s : List Char) : List Char :=
  ((s.dropWhile isPySpace).reverse.dropWhile isPySpace).reverse

/-- Fuel-driven body of Python `str.replace(pat, rep)` (replace every
non-overlapping occurrence, left to right).  The fuel is initialised to
`s.length + 1`; every step consumes at least one character of `s`, so
the fuel is never exhausted for a non-empty pattern. -/
def replaceAllAux : Nat → List Char → List Char → List Char → List Char
  | 0, s, _, _ => s
  | fuel + 1, s, pat, rep =>
    match s with
    | [] => []
    | c :: rest =>
      if pat.isPrefixOf s then rep ++ replaceAllAux fuel (s.drop pat.length) pat rep
      else c :: replaceAllAux fuel rest pat rep

/-- Python `str.replace(pat, rep)` for a non-empty pattern.  (An empty
pattern never occurs: every operator phrase of the lexer is non-empty;
for totality it returns `s` unchanged.) -/
def pyReplace (s pat rep : List Char) : List Char :=
  if pat.isEmpty then s else replaceAllAux (s.length + 1) s pat rep

/-- Body of `re.sub(r'\s+', ' ', t)`: the flag records whether the
previous character was whitespace (i.e. we are inside a run). -/
def collapseAux : List Char → Bool → List Char
  | [], _ => []
  | c :: rest, inRun =>
    if isPySpace c then
      if inRun then collapseAux rest true
      else ' ' :: collapseAux rest true
    else c :: collapseAux rest false

/-- `re.sub(r'\s+', ' ', t)`: replace every whitespace run by one space. -/
def collapseWs (s : List Char) : List Char := collapseAux s false

/-- Digits of a decimal literal folded to a natural number
(Python `int` on a string of digits). -/
def digitsToNat (s : List Char) : Nat :=
  s.foldl (fun a c => 10 * a + (c.toNat - 48)) 0

/-- Python `int(s)` (base 10): optional surrounding whitespace, optional
sign, then at least one digit.  (Underscore separators are not
modelled; no lexeme of this pipeline contains one.) -/
def pyIntParse (s : List Char) : Option Int :=
  let t := pyStrip s
  match t with
  | '-' :: r => if !r.isEmpty && r.all isPyDigit then some (-(digitsToNat r : Int)) else none
  | '+' :: r => if !r.isEmpty && r.all isPyDigit then some (digitsToNat r : Int) else none
  | r => if !r.isEmpty && r.all isPyDigit then some (digitsToNat r : Int) else none

/-- Split off a leading run of digits. -/
def takeDigits (cs : List Char) : List Char × List Char :=
  (cs.takeWhile isPyDigit, cs.dropWhile isPyDigit)

/-- Exponent part of a Python float literal: empty, or `e`/`E`, an
optional sign and at least one digit, consuming the whole rest. -/
def floatExponentOk : List Char → Bool
  | [] => true
  | c :: rest =>
    if c == 'e' || c == 'E' then
      let rest2 := match rest with
        | s :: r2 => if s == '+' || s == '-' then r2 else s :: r2
        | [] => []
      let (ds, rest3) := takeDigits rest2
      !ds.isEmpty && rest3.isEmpty
    else false

/-- Mantissa-and-exponent part of a Python float literal:
`digits [. digits] [exp]` or `. digits [exp]`. -/
def floatBodyOk (cs : List Char) : Bool :=
  let (ip, r1) := takeDigits cs
  if ip.isEmpty then
    match r1 with
    | '.' :: r2 =>
      let (fp, r3) := takeDigits r2
      !fp.isEmpty && floatExponentOk r3
    | _ => false
  else
    match r1 with
    | '.' :: r2 =>
      let (_, r3) := takeDigits r2
      floatExponentOk r3
    | _ => floatExponentOk r1

/-- Acceptance of Python `float(s)`: optional surrounding whitespace and
sign, then a decimal mantissa with optional exponent.  (`inf`/`nan`
spellings and underscore separators are not modelled; no lexeme of this
pipeline produces them.) -/
def pyFloatAccepts (s : List Char) : Bool :=
  let t := pyStrip s
  let t := match t with
    | c :: r => if c == '+' || c == '-' then r else c :: r
    | [] => []
  floatBodyOk t

/-! ### Lexer (`lexer.py`) -/

/-- `TokenType` enumeration of `lexer.py`. -/
inductive TokenType
  | SELECT | SHOW | LIST | GET | FIND | COUNT | SUM | INSERT | UPDATE | DELETE
  | FROM | WHERE | AND | OR | ORDER | BY | GROUP | INTO | SET | VALUES
  | ALL | DISTINCT | UNIQUE | ASC | DESC
  | BETWEEN | IN | LIKE | CONTAINS
  | HOW | MANY | TOTAL
  | ALTER | TABLE | DROP | COLUMN
  | EQUALS | NOT_EQUALS | GREATER | LESS | GREATER_EQ | LESS_EQ
  | NUMBER | STRING | IDENTIFIER
  | COMMA | LPAREN | RPAREN | STAR
  | EOF | UNKNOWN
  deriving DecidableEq, Repr

/-- Enum member name, as Python `token.type.name` (used in messages). -/
def TokenType.name : TokenType → String
  | .SELECT => "SELECT" | .SHOW => "SHOW" | .LIST => "LIST" | .GET => "GET"
  | .FIND => "FIND" | .COUNT => "COUNT" | .SUM => "SUM" | .INSERT => "INSERT"
  | .UPDATE => "UPDATE" | .DELETE => "DELETE"
  | .FROM => "FROM" | .WHERE => "WHERE" | .AND => "AND" | .OR => "OR"
  | .ORDER => "ORDER" | .BY => "BY" | .GROUP => "GROUP" | .INTO => "INTO"
  | .SET => "SET" | .VALUES => "VALUES"
  | .ALL => "ALL" | .DISTINCT => "DISTINCT" | .UNIQUE => "UNIQUE"
  | .ASC => "ASC" | .DESC => "DESC"
  | .BETWEEN => "BETWEEN" | .IN => "IN" | .LIKE => "LIKE" | .CONTAINS => "CONTAINS"
  | .HOW => "HOW" | .MANY => "MANY" | .TOTAL => "TOTAL"
  | .ALTER => "ALTER" | .TABLE => "TABLE" | .DROP => "DROP" | .COLUMN => "COLUMN"
  | .EQUALS => "EQUALS" | .NOT_EQUALS => "NOT_EQUALS" | .GREATER => "GREATER"
  | .LESS => "LESS" | .GREATER_EQ => "GREATER_EQ" | .LESS_EQ => "LESS_EQ"
  | .NUMBER => "NUMBER" | .STRING => "STRING" | .IDENTIFIER => "IDENTIFIER"
  | .COMMA => "COMMA" | .LPAREN => "LPAREN" | .RPAREN => "RPAREN" | .STAR => "STAR"
  | .EOF => "EOF" | .UNKNOWN => "UNKNOWN"

/-- `Token` dataclass of `lexer.py`. -/
structure Token where
  type : TokenType
  value : String
  position : Nat
  deriving DecidableEq, Repr

/-- `Lexer.KEYWORDS`: keyword table with synonyms, in source order. -/
def KEYWORDS : List (String × TokenType) := [
  ("select", .SELECT), ("show", .SELECT), ("list", .SELECT), ("get", .SELECT),
  ("find", .FIND), ("count", .COUNT), ("sum", .SUM), ("insert", .INSERT),
  ("update", .UPDATE), ("delete", .DELETE), ("remove", .DELETE),
  ("from", .FROM), ("of", .FROM), ("where", .WHERE), ("and", .AND), ("or", .OR),
  ("order", .ORDER), ("by", .BY), ("group", .GROUP), ("into", .INTO),
  ("set", .SET), ("values", .VALUES),
  ("all", .ALL), ("distinct", .DISTINCT), ("unique", .DISTINCT),
  ("asc", .ASC), ("ascending", .ASC), ("desc", .DESC), ("descending", .DESC),
  ("between", .BETWEEN), ("in", .IN), ("like", .LIKE), ("contains", .CONTAINS),
  ("how", .HOW), ("many", .MANY), ("total", .TOTAL),
  ("alter", .ALTER), ("table", .TABLE), ("drop", .DROP),
  ("column", .COLUMN), ("columns", .COLUMN), ("col", .COLUMN)]

/-- Keyword lookup of `Lexer._read_word`: a hit in `KEYWORDS`, otherwise
`IDENTIFIER`. -/
def keywordOf (w : String) : TokenType :=
  ((KEYWORDS.find? (fun p => p.1 == w)).map Prod.snd).getD .IDENTIFIER

/-- `Lexer.OPERATOR_PHRASES`, in source order. -/
def OPERATOR_PHRASES : List (String × String) := [
  ("greater than or equal to", ">="),
  ("less than or equal to", "<="),
  ("greater than", ">"),
  ("more than", ">"),
  ("less than", "<"),
  ("is equal to", "="),
  ("equal to", "="),
  ("equals", "="),
  ("equal", "="),
  ("same as", "="),
  ("not equal to", "!="),
  ("not equal", "!="),
  ("different from", "!=")]

/-- `Lexer._preprocess`: lowercase and strip, substitute each operator
phrase (in table order) by its padded symbol, collapse whitespace. -/
def preprocess (text : List Char) : List Char :=
  let t := pyStrip (text.map pyLower)
  let t := OPERATOR_PHRASES.foldl
    (fun acc p => pyReplace acc p.1.data (" " ++ p.2 ++ " ").data) t
  collapseWs t

/-- Character class of `Lexer._read_number`: digit or decimal point. -/
def isNumChar (c : Char) : Bool := isPyDigit c || c == '.'

/-- Character class of `Lexer._read_word`: alphanumeric or underscore. -/
def isWordChar (c : Char) : Bool := isPyAlnum c || c == '_'

/-- Single-character operator table of `Lexer._read_operator`. -/
def single_char_operators : List (Char × TokenType) := [
  ('=', .EQUALS), ('>', .GREATER), ('<', .LESS),
  (',', .COMMA), ('(', .LPAREN), (')', .RPAREN), ('*', .STAR)]

/-- `Lexer._read_operator` on the remaining text: two-character
operators first, then the single-character table, else `UNKNOWN`.
Returns the token, the remaining text, and the new position. -/
def read_operator (cs : List Char) (pos : Nat) : Token × List Char × Nat :=
  match cs with
  | [] => (⟨.UNKNOWN, "", pos⟩, [], pos)
  | c :: rest =>
    if c == '>' && rest.head? == some '=' then (⟨.GREATER_EQ, ">=", pos⟩, rest.tail, pos + 2)
    else if c == '<' && rest.head? == some '=' then (⟨.LESS_EQ, "<=", pos⟩, rest.tail, pos + 2)
    else if c == '!' && rest.head? == some '=' then (⟨.NOT_EQUALS, "!=", pos⟩, rest.tail, pos + 2)
    else
      match single_char_operators.find? (fun p => p.1 == c) with
      | some p => (⟨p.2, String.mk [c], pos⟩, rest, pos + 1)
      | none => (⟨.UNKNOWN, String.mk [c], pos⟩, rest, pos + 1)

/-- Scanning loop of `Lexer.tokenize`: skip whitespace, dispatch on the
leading character (number / string / word / operator), drop `UNKNOWN`
operator tokens, and append a final `EOF` token carrying the end
position.  Fuel is initialised to `length + 1`; every iteration
consumes at least one character, so the fuel is never exhausted. -/
def scanAux : Nat → List Char → Nat → List Token
  | 0, _, _ => []
  | fuel + 1, cs, pos =>
    let ws := cs.takeWhile isPySpace
    let rest := cs.dropWhile isPySpace
    let p := pos + ws.length
    match rest with
    | [] => [⟨.EOF, "", p⟩]
    | c :: cs1 =>
      if isPyDigit c then
        let run := rest.takeWhile isNumChar
        ⟨.NUMBER, String.mk run, p⟩ :: scanAux fuel (rest.drop run.length) (p + run.length)
      else if c == '"' || c == Char.ofNat 39 then
        let body := cs1.takeWhile (fun x => x != c)
        let after := cs1.drop body.length
        match after with
        | [] => ⟨.STRING, String.mk body, p⟩ :: scanAux fuel [] (p + 1 + body.length)
        | _ :: cs2 => ⟨.STRING, String.mk body, p⟩ :: scanAux fuel cs2 (p + 2 + body.length)
      else if isPyAlpha c || c == '_' then
        let run := rest.takeWhile isWordChar
        ⟨keywordOf (String.mk (run.map pyLower)), String.mk run, p⟩ ::
          scanAux fuel (rest.drop run.length) (p + run.length)
      else
        let r := read_operator rest p
        if r.1.type ≠ .UNKNOWN then r.1 :: scanAux fuel r.2.1 r.2.2
        else scanAux fuel r.2.1 r.2.2

/-- `Lexer.tokenize` / module-level `tokenize(text)`: preprocess, scan,
terminate with `EOF`. -/
def tokenize (text : String) : List Token :=
  let t := preprocess text.data
  scanAux (t.length + 1) t 0

/-! ### Errors, values, AST (`syntax_parser.py`) -/

/-- Python exceptions the pipeline can raise: `ParseError` (the parser's
own exception class), `ValueError` (from `int()`/`float()`), and
`TypeError` (from `', '.join` over a `None` entry). -/
inductive PyErr
  | parseError (msg : String)
  | valueError (msg : String)
  | typeError (msg : String)
  deriving DecidableEq, Repr

deriving instance DecidableEq for Except

/-- Runtime value a parsed literal can take (`Parser._parse_value`):
a Python `int`, `float`, or `str`.  A float is carried as its accepted
literal text; its rendering through `str()` is modelled as that text
(no claim depends on float re-formatting). -/
inductive Value
  | intV (n : Int)
  | floatV (literal : String)
  | strV (s : String)
  deriving DecidableEq, Repr

/-- Python `str(value)` on the three value kinds. -/
def pyStr : Value → String
  | .intV n => toString n
  | .floatV literal => literal
  | .strV s => s

/-- Condition AST: `SimpleCondition`, `AndCondition`, `OrCondition`,
`BetweenCondition`, `InCondition` (`inCond`: `in` is reserved in Lean),
`LikeCondition`. -/
inductive ConditionNode
  | simple (column operator : String) (value : Value)
  | and (left right : ConditionNode)
  | or (left right : ConditionNode)
  | between (column : String) (low high : Value)
  | inCond (column : String) (values : List Value)
  | like (column pattern : String)
  deriving DecidableEq, Repr

/-- `WhereNode`. -/
structure WhereNode where
  condition : ConditionNode
  deriving DecidableEq, Repr

/-- `OrderByNode`. -/
structure OrderByNode where
  column : String
  direction : String
  deriving DecidableEq, Repr

/-- `GroupByNode`. -/
structure GroupByNode where
  column : String
  deriving DecidableEq, Repr

/-- `AggregateNode`. -/
structure AggregateNode where
  function : String
  column : Option String
  deriving DecidableEq, Repr

/-- `SelectNode`.  The Python dataclass annotates `columns: List[str]`
and `table: str`, but at runtime the parser can store `None` both as a
column entry and as the table, so both are embedded with `Option`.
(`whereClause` stands for the Python field `where`, reserved in Lean.) -/
structure SelectNode where
  columns : List (Option String)
  table : Option String
  whereClause : Option WhereNode
  order_by : Option OrderByNode
  group_by : Option GroupByNode
  distinct : Bool
  aggregate : Option AggregateNode
  deriving DecidableEq, Repr

/-- `InsertNode`. -/
structure InsertNode where
  table : String
  values : List Value
  columns : Option (List String)
  deriving DecidableEq, Repr

/-- `UpdateNode`. -/
structure UpdateNode where
  table : String
  set_column : String
  set_value : Value
  whereClause : Option WhereNode
  deriving DecidableEq, Repr

/-- `DeleteNode`. -/
structure DeleteNode where
  table : String
  whereClause : Option WhereNode
  deriving DecidableEq, Repr

/-- `AlterTableNode`. -/
structure AlterTableNode where
  table : String
  action : String
  columns : List String
  deriving DecidableEq, Repr

/-- Closed set of statement-level AST variants. -/
inductive ASTNode
  | select (node : SelectNode)
  | insert (node : InsertNode)
  | update (node : UpdateNode)
  | delete (node : DeleteNode)
  | alterTable (node : AlterTableNode)
  deriving DecidableEq, Repr

/-! ### Parser (`syntax_parser.py`)

The Python `Parser` walks `self.tokens` with an integer position whose
reads clamp to the last token; the lexer always ends its output with an
`EOF` token, so reading past the end always yields `EOF`.  The
embedding threads the remaining-token list instead: `cur []` is the
`EOF` token and `advance [] = []`, which is observably identical on
every `EOF`-terminated token list (the parser inspects only a token's
`type` and `value`). -/

namespace Parser

/-- Stand-in for reading past the end of an `EOF`-terminated list. -/
def eofTok : Token := ⟨.EOF, "", 0⟩

/-- `Parser._current_token`. -/
def cur (ts : List Token) : Token := ts.headD eofTok

/-- `Parser._advance` (the consumed token is read via `cur` first). -/
def advance (ts : List Token) : List Token := ts.tail

/-- `Parser._expect`: require the current token's type, advance. -/
def expectTok (tt : TokenType) (ts : List Token) : Except PyErr (Token × List Token) :=
  if (cur ts).type = tt then .ok (cur ts, advance ts)
  else .error (.parseError ("Expected " ++ tt.name ++ ", got " ++ (cur ts).type.name))

/-- `Parser._parse_value`: a `NUMBER` token goes through Python
`float()` when its lexeme contains a dot and `int()` otherwise (either
may raise `ValueError`); `STRING` and `IDENTIFIER` lexemes are returned
as strings; anything else is a `ParseError`. -/
def parse_value (ts : List Token) : Except PyErr (Value × List Token) :=
  let token := cur ts
  if token.type = .NUMBER then
    if token.value.data.contains '.' then
      if pyFloatAccepts token.value.data then .ok (.floatV token.value, advance ts)
      else .error (.valueError ("could not convert string to float: '" ++ token.value ++ "'"))
    else
      match pyIntParse token.value.data with
      | some n => .ok (.intV n, advance ts)
      | none => .error (.valueError ("invalid literal for int() with base 10: '" ++ token.value ++ "'"))
  else if token.type = .STRING then .ok (.strV token.value, advance ts)
  else if token.type = .IDENTIFIER then .ok (.strV token.value, advance ts)
  else .error (.parseError ("Expected value, got " ++ token.type.name))

/-- `op_map` of `Parser._parse_operator`. -/
def op_map : TokenType → Option String
  | .EQUALS => some "="
  | .NOT_EQUALS => some "!="
  | .GREATER => some ">"
  | .LESS => some "<"
  | .GREATER_EQ => some ">="
  | .LESS_EQ => some "<="
  | _ => none

/-- `Parser._parse_operator`. -/
def parse_operator (ts : List Token) : Except PyErr (String × List Token) :=
  match op_map (cur ts).type with
  | some s => .ok (s, advance ts)
  | none => .error (.parseError ("Expected operator, got " ++ (cur ts).type.name))

/-- Comma-driven loop of `Parser._parse_value_list`.  Fuel is set to
`remaining-tokens + 1` at the call site; every iteration consumes at
least the comma, so it is never exhausted. -/
def value_list_loop : Nat → List Value → List Token → Except PyErr (List Value × List Token)
  | 0, acc, ts => .ok (acc, ts)
  | fuel + 1, acc, ts =>
    if (cur ts).type = .COMMA then
      match parse_value (advance ts) with
      | .error e => .error e
      | .ok (v, ts1) => value_list_loop fuel (acc ++ [v]) ts1
    else .ok (acc, ts)

/-- `Parser._parse_value_list`: optional parentheses around a
comma-separated value list. -/
def parse_value_list (ts : List Token) : Except PyErr (List Value × List Token) := do
  let has_paren : Bool := decide ((cur ts).type = .LPAREN)
  let ts := if has_paren then advance ts else ts
  let (v, ts) ← parse_value ts
  let (values, ts) ← value_list_loop (ts.length + 1) [v] ts
  let ts := if has_paren then (if (cur ts).type = .RPAREN then advance ts else ts) else ts
  pure (values, ts)

/-- `Parser._parse_simple_condition`: column, then BETWEEN / IN /
LIKE-or-CONTAINS / plain comparison. -/
def parse_simple_condition (ts : List Token) : Except PyErr (ConditionNode × List Token) := do
  if (cur ts).type ≠ .IDENTIFIER then
    throw (.parseError "Expected column name in condition")
  else
    let column := (cur ts).value
    let ts := advance ts
    if (cur ts).type = .BETWEEN then
      let ts := advance ts
      let (low, ts) ← parse_value ts
      let (_, ts) ← expectTok .AND ts
      let (high, ts) ← parse_value ts
      pure (.between column low high, ts)
    else if (cur ts).type = .IN then
      let ts := advance ts
      let (values, ts) ← parse_value_list ts
      pure (.inCond column values, ts)
    else if (cur ts).type = .LIKE ∨ (cur ts).type = .CONTAINS then
      let ts := advance ts
      let (pattern, ts) ← parse_value ts
      pure (.like column (pyStr pattern), ts)
    else
      let (op, ts) ← parse_operator ts
      let (value, ts) ← parse_value ts
      pure (.simple column op value, ts)

/-- AND/OR folding loop of `Parser._parse_condition`: left-to-right,
no precedence.  Fuel as in `value_list_loop`. -/
def cond_loop : Nat → ConditionNode → List Token → Except PyErr (ConditionNode × List Token)
  | 0, left, ts => .ok (left, ts)
  | fuel + 1, left, ts =>
    if (cur ts).type = .AND ∨ (cur ts).type = .OR then
      let op := cur ts
      match parse_simple_condition (advance ts) with
      | .error e => .error e
      | .ok (right, ts1) =>
        if op.type = .AND then cond_loop fuel (.and left right) ts1
        else cond_loop fuel (.or left right) ts1
    else .ok (left, ts)

/-- `Parser._parse_condition`. -/
def parse_condition (ts : List Token) : Except PyErr (ConditionNode × List Token) := do
  let (left, ts1) ← parse_simple_condition ts
  cond_loop (ts1.length + 1) left ts1

/-- `Parser._parse_where`. -/
def parse_where (ts : List Token) : Except PyErr (WhereNode × List Token) := do
  let ts := advance ts
  let (condition, ts) ← parse_condition ts
  pure (⟨condition⟩, ts)

/-- `Parser._parse_from`: consume `FROM` (or, when not `allow_missing`,
tolerate a bare table identifier), then return the table identifier;
`none` is returned only when `allow_missing` is set. -/
def parse_from (allow_missing : Bool) (ts : List Token) : Except PyErr (Option String × List Token) := do
  let ts ← (do
    if (cur ts).type = .FROM then pure (advance ts)
    else if !allow_missing then
      if (cur ts).type ≠ .IDENTIFIER then throw (.parseError "Expected table name after FROM")
      else pure ts
    else pure ts : Except PyErr (List Token))
  if (cur ts).type = .IDENTIFIER then
    pure (some (cur ts).value, advance ts)
  else if !allow_missing then
    throw (.parseError "Expected table name after FROM")
  else
    pure (none, ts)

/-- `Parser._parse_order_by`: `ORDER BY [column] [ASC|DESC]`, column
defaulting to `id` and direction to `ASC`. -/
def parse_order_by (ts : List Token) : Except PyErr (OrderByNode × List Token) := do
  let ts := advance ts
  let (_, ts) ← expectTok .BY ts
  let (column, ts) :=
    if (cur ts).type ≠ .IDENTIFIER then ("id", ts)
    else ((cur ts).value, advance ts)
  let (direction, ts) :=
    if (cur ts).type = .ASC then ("ASC", advance ts)
    else if (cur ts).type = .DESC then ("DESC", advance ts)
    else ("ASC", ts)
  pure (⟨column, direction⟩, ts)

/-- `Parser._parse_group_by`. -/
def parse_group_by (ts : List Token) : Except PyErr (GroupByNode × List Token) := do
  let ts := advance ts
  let (_, ts) ← expectTok .BY ts
  if (cur ts).type ≠ .IDENTIFIER then
    throw (.parseError "Expected column name after GROUP BY")
  else
    pure (⟨(cur ts).value⟩, advance ts)

/-- Column-list loop inside `Parser._parse_select` (`while COMMA:
advance; if IDENTIFIER: append`).  Entries are `Option String` because
the first entry can be Python `None`. -/
def select_comma_loop : Nat → List (Option String) → List Token → List (Option String) × List Token
  | 0, cols, ts => (cols, ts)
  | fuel + 1, cols, ts =>
    if (cur ts).type = .COMMA then
      let ts1 := advance ts
      if (cur ts1).type = .IDENTIFIER then
        select_comma_loop fuel (cols ++ [some (cur ts1).value]) (advance ts1)
      else select_comma_loop fuel cols ts1
    else (cols, ts)

/-- `Parser._parse_select`: DISTINCT flag, then the four projection
shapes (`ALL`/`*`, column list, single column + FROM, bare table name),
then optional WHERE / ORDER BY / GROUP BY. -/
def parse_select (ts : List Token) : Except PyErr (SelectNode × List Token) := do
  let ts := advance ts
  let (distinct, ts) := if (cur ts).type = .DISTINCT then (true, advance ts) else (false, ts)
  let (columns, table, ts) ← (do
    if (cur ts).type = .ALL then
      let ts := advance ts
      let (table, ts) ← parse_from false ts
      pure ([some "*"], table, ts)
    else if (cur ts).type = .STAR then
      let ts := advance ts
      let (table, ts) ← parse_from false ts
      pure ([some "*"], table, ts)
    else
      let (first_identifier, ts) :=
        if (cur ts).type = .IDENTIFIER then (some (cur ts).value, advance ts) else (none, ts)
      if (cur ts).type = .COMMA then
        let (columns, ts) := select_comma_loop (ts.length + 1) [first_identifier] ts
        let (table, ts) ← parse_from false ts
        pure (columns, table, ts)
      else if (cur ts).type = .FROM then
        let (table, ts) ← parse_from false ts
        pure ([first_identifier], table, ts)
      else if (cur ts).type = .WHERE ∨ (cur ts).type = .ORDER ∨
              (cur ts).type = .GROUP ∨ (cur ts).type = .EOF then
        pure ([some "*"], first_identifier, ts)
      else
        let columns := match first_identifier with
          | some c => if c.isEmpty then [some "*"] else [some c]
          | none => [some "*"]
        let (table0, ts) ← parse_from true ts
        match table0 with
        | none => pure ([some "*"], first_identifier, ts)
        | some t => pure (columns, some t, ts)
    : Except PyErr (List (Option String) × Option String × List Token))
  let (whereC, ts) ← (if (cur ts).type = .WHERE then
      do let (w, ts) ← parse_where ts; pure (some w, ts)
    else pure (none, ts) : Except PyErr (Option WhereNode × List Token))
  let (order_by, ts) ← (if (cur ts).type = .ORDER then
      do let (o, ts) ← parse_order_by ts; pure (some o, ts)
    else pure (none, ts) : Except PyErr (Option OrderByNode × List Token))
  let (group_by, ts) ← (if (cur ts).type = .GROUP then
      do let (g, ts) ← parse_group_by ts; pure (some g, ts)
    else pure (none, ts) : Except PyErr (Option GroupByNode × List Token))
  pure ({ columns := columns, table := table, whereClause := whereC,
          order_by := order_by, group_by := group_by, distinct := distinct,
          aggregate := none }, ts)

/-- `Parser._parse_count`: `COUNT`/`HOW [MANY]`, optional target,
optional `FROM table`, optional WHERE; yields a `SELECT COUNT(*)`. -/
def parse_count (ts : List Token) : Except PyErr (SelectNode × List Token) := do
  let ts := advance ts
  let ts := if (cur ts).type = .MANY then advance ts else ts
  let (target, ts) :=
    if (cur ts).type = .IDENTIFIER then (some (cur ts).value, advance ts) else (none, ts)
  let (table, ts) :=
    if (cur ts).type = .FROM then
      let ts := advance ts
      if (cur ts).type = .IDENTIFIER then (some (cur ts).value, advance ts) else (target, ts)
    else (target, ts)
  let (whereC, ts) ← (if (cur ts).type = .WHERE then
      do let (w, ts) ← parse_where ts; pure (some w, ts)
    else pure (none, ts) : Except PyErr (Option WhereNode × List Token))
  pure ({ columns := [some "COUNT(*)"], table := table, whereClause := whereC,
          order_by := none, group_by := none, distinct := false,
          aggregate := some ⟨"COUNT", none⟩ }, ts)

/-- `Parser._parse_sum`: like `_parse_count`, with the Python
truthiness of the column string (`f'SUM({column})' if column else
'SUM(*)'`) made explicit. -/
def parse_sum (ts : List Token) : Except PyErr (SelectNode × List Token) := do
  let ts := advance ts
  let (column, ts) :=
    if (cur ts).type = .IDENTIFIER then (some (cur ts).value, advance ts) else (none, ts)
  let (table, ts) :=
    if (cur ts).type = .FROM then
      let ts := advance ts
      if (cur ts).type = .IDENTIFIER then (some (cur ts).value, advance ts) else (column, ts)
    else (column, ts)
  let (whereC, ts) ← (if (cur ts).type = .WHERE then
      do let (w, ts) ← parse_where ts; pure (some w, ts)
    else pure (none, ts) : Except PyErr (Option WhereNode × List Token))
  let colStr := match column with
    | some c => if c.isEmpty then "SUM(*)" else "SUM(" ++ c ++ ")"
    | none => "SUM(*)"
  pure ({ columns := [some colStr], table := table, whereClause := whereC,
          order_by := none, group_by := none, distinct := false,
          aggregate := some ⟨"SUM", column⟩ }, ts)

/-- `Parser._parse_find`: optional table identifier, optional WHERE;
yields a `SELECT *`. -/
def parse_find (ts : List Token) : Except PyErr (SelectNode × List Token) := do
  let ts := advance ts
  let (table, ts) :=
    if (cur ts).type = .IDENTIFIER then (some (cur ts).value, advance ts) else (none, ts)
  let (whereC, ts) ← (if (cur ts).type = .WHERE then
      do let (w, ts) ← parse_where ts; pure (some w, ts)
    else pure (none, ts) : Except PyErr (Option WhereNode × List Token))
  pure ({ columns := [some "*"], table := table, whereClause := whereC,
          order_by := none, group_by := none, distinct := false,
          aggregate := none }, ts)

/-- `Parser._parse_insert`: `INSERT INTO table VALUES value-list`. -/
def parse_insert (ts : List Token) : Except PyErr (InsertNode × List Token) := do
  let ts := advance ts
  let (_, ts) ← expectTok .INTO ts
  if (cur ts).type ≠ .IDENTIFIER then
    throw (.parseError "Expected table name after INSERT INTO")
  else
    let table := (cur ts).value
    let ts := advance ts
    let (_, ts) ← expectTok .VALUES ts
    let (values, ts) ← parse_value_list ts
    pure ({ table := table, values := values, columns := none }, ts)

/-- `Parser._parse_update`: `UPDATE table SET col = value [WHERE ...]`. -/
def parse_update (ts : List Token) : Except PyErr (UpdateNode × List Token) := do
  let ts := advance ts
  if (cur ts).type ≠ .IDENTIFIER then
    throw (.parseError "Expected table name after UPDATE")
  else
    let table := (cur ts).value
    let ts := advance ts
    let (_, ts) ← expectTok .SET ts
    if (cur ts).type ≠ .IDENTIFIER then
      throw (.parseError "Expected column name after SET")
    else
      let set_column := (cur ts).value
      let ts := advance ts
      let (_, ts) ← expectTok .EQUALS ts
      let (set_value, ts) ← parse_value ts
      let (whereC, ts) ← (if (cur ts).type = .WHERE then
          do let (w, ts) ← parse_where ts; pure (some w, ts)
        else pure (none, ts) : Except PyErr (Option WhereNode × List Token))
      pure ({ table := table, set_column := set_column, set_value := set_value,
              whereClause := whereC }, ts)

/-- Column-list loop of `Parser._parse_drop_column`. -/
def ident_comma_loop : Nat → List String → List Token → List String × List Token
  | 0, cols, ts => (cols, ts)
  | fuel + 1, cols, ts =>
    if (cur ts).type = .COMMA then
      let ts1 := advance ts
      if (cur ts1).type = .IDENTIFIER then
        ident_comma_loop fuel (cols ++ [(cur ts1).value]) (advance ts1)
      else ident_comma_loop fuel cols ts1
    else (cols, ts)

/-- `Parser._parse_drop_column` (reached via `DELETE COLUMN ...`). -/
def parse_drop_column (ts : List Token) : Except PyErr (AlterTableNode × List Token) := do
  let ts := advance ts
  let (columns, ts) :=
    if (cur ts).type = .IDENTIFIER then
      ident_comma_loop ((advance ts).length + 1) [(cur ts).value] (advance ts)
    else ([], ts)
  let (_, ts) ← expectTok .FROM ts
  if (cur ts).type ≠ .IDENTIFIER then
    throw (.parseError "Expected table name after FROM")
  else
    pure ({ table := (cur ts).value, action := "DROP COLUMN", columns := columns }, advance ts)

/-- `Parser._parse_delete`: `DELETE COLUMN ...` switches to the
column-drop form, otherwise `DELETE [FROM] table [WHERE ...]`. -/
def parse_delete (ts : List Token) : Except PyErr (ASTNode × List Token) := do
  let ts := advance ts
  if (cur ts).type = .COLUMN then
    let (node, ts) ← parse_drop_column ts
    pure (.alterTable node, ts)
  else
    let ts := if (cur ts).type = .FROM then advance ts else ts
    if (cur ts).type ≠ .IDENTIFIER then
      throw (.parseError "Expected table name after DELETE FROM")
    else
      let table := (cur ts).value
      let ts := advance ts
      let (whereC, ts) ← (if (cur ts).type = .WHERE then
          do let (w, ts) ← parse_where ts; pure (some w, ts)
        else pure (none, ts) : Except PyErr (Option WhereNode × List Token))
      pure (.delete { table := table, whereClause := whereC }, ts)

/-- `Parser._parse_alter`: `ALTER TABLE table DROP COLUMN [col]`. -/
def parse_alter (ts : List Token) : Except PyErr (AlterTableNode × List Token) := do
  let ts := advance ts
  let (_, ts) ← expectTok .TABLE ts
  if (cur ts).type ≠ .IDENTIFIER then
    throw (.parseError "Expected table name after ALTER TABLE")
  else
    let table := (cur ts).value
    let ts := advance ts
    let (_, ts) ← expectTok .DROP ts
    let (_, ts) ← expectTok .COLUMN ts
    let (columns, ts) :=
      if (cur ts).type = .IDENTIFIER then ([(cur ts).value], advance ts) else ([], ts)
    pure ({ table := table, action := "DROP COLUMN", columns := columns }, ts)

/-- `Parser.parse`: dispatch on the leading token. -/
def parse (ts : List Token) : Except PyErr ASTNode :=
  if (cur ts).type = .SELECT then (parse_select ts).map (fun p => .select p.1)
  else if (cur ts).type = .COUNT ∨ (cur ts).type = .HOW then (parse_count ts).map (fun p => .select p.1)
  else if (cur ts).type = .SUM ∨ (cur ts).type = .TOTAL then (parse_sum ts).map (fun p => .select p.1)
  else if (cur ts).type = .FIND then (parse_find ts).map (fun p => .select p.1)
  else if (cur ts).type = .INSERT then (parse_insert ts).map (fun p => .insert p.1)
  else if (cur ts).type = .UPDATE then (parse_update ts).map (fun p => .update p.1)
  else if (cur ts).type = .DELETE then (parse_delete ts).map (fun p => p.1)
  else if (cur ts).type = .ALTER then (parse_alter ts).map (fun p => .alterTable p.1)
  else .error (.parseError ("Unexpected token: " ++ (cur ts).type.name ++ " '" ++ (cur ts).value ++ "'"))

end Parser

/-- Module-level `parse(text)` of `syntax_parser.py`. -/
def parse (text : String) : Except PyErr ASTNode :=
  Parser.parse (tokenize text)

/-! ### SQL generator (`pipeline.py`) -/

/-- Non-empty all-digit string (`str.isdigit`, ASCII fragment). -/
def pyIsDigitStr (s : List Char) : Bool := !s.isEmpty && s.all isPyDigit

/-- `format_value`: numeric-looking strings stay bare, other strings
are single-quoted, numbers print via `str()`. -/
def format_value : Value → String
  | .strV v =>
    if pyIsDigitStr v.data || (v.data.head? == some '-' && pyIsDigitStr v.data.tail) then v
    else if pyFloatAccepts v.data then v
    else "'" ++ v ++ "'"
  | .intV n => toString n
  | .floatV literal => literal

/-- `condition_to_sql`: recursive rendering of condition trees.  In the
`like` branch, Python wraps the pattern in `%...%` when it contains no
`%` (`if '%' not in pattern`). -/
def condition_to_sql : ConditionNode → String
  | .simple column op value => column ++ " " ++ op ++ " " ++ format_value value
  | .and left right => condition_to_sql left ++ " AND " ++ condition_to_sql right
  | .or left right => "(" ++ condition_to_sql left ++ " OR " ++ condition_to_sql right ++ ")"
  | .between column low high => column ++ " BETWEEN " ++ pyStr low ++ " AND " ++ pyStr high
  | .inCond column values =>
    column ++ " IN (" ++ String.intercalate ", " (values.map format_value) ++ ")"
  | .like column pattern =>
    let pat := if pattern.data.contains '%' then pattern else "%" ++ pattern ++ "%"
    column ++ " LIKE '" ++ pat ++ "'"

/-- Python `', '.join(xs)` over possibly-`None` entries: a `None` entry
raises `TypeError`. -/
def pyJoinCols (sep : String) (xs : List (Option String)) : Except PyErr String :=
  if xs.all Option.isSome then .ok (String.intercalate sep (xs.filterMap id))
  else .error (.typeError "sequence item: expected str instance, NoneType found")

/-- Python `str()` of an optional string as interpolated by an f-string
(`str(None) = "None"`). -/
def pyStrOptS : Option String → String
  | some s => s
  | none => "None"

/-- `ast_to_sql`: total rendering over the closed AST variant set.
Only the column join of the `SELECT` shape can raise (a `TypeError`
when a column entry is Python `None`). -/
def ast_to_sql : ASTNode → Except PyErr String
  | .select node => do
    let columns ← pyJoinCols ", " node.columns
    let sql := "SELECT " ++ (if node.distinct then "DISTINCT " else "") ++ columns
                 ++ " FROM " ++ pyStrOptS node.table
    let sql := match node.whereClause with
      | some w => sql ++ " WHERE " ++ condition_to_sql w.condition
      | none => sql
    let sql := match node.order_by with
      | some o => sql ++ " ORDER BY " ++ o.column ++ " " ++ o.direction
      | none => sql
    let sql := match node.group_by with
      | some g => sql ++ " GROUP BY " ++ g.column
      | none => sql
    pure (sql ++ ";")
  | .insert node =>
    pure ("INSERT INTO " ++ node.table ++ " VALUES (" ++
      String.intercalate ", " (node.values.map format_value) ++ ");")
  | .update node =>
    let sql := "UPDATE " ++ node.table ++ " SET " ++ node.set_column ++ " = " ++
      format_value node.set_value
    let sql := match node.whereClause with
      | some w => sql ++ " WHERE " ++ condition_to_sql w.condition
      | none => sql
    pure (sql ++ ";")
  | .delete node =>
    let sql := "DELETE FROM " ++ node.table
    let sql := match node.whereClause with
      | some w => sql ++ " WHERE " ++ condition_to_sql w.condition
      | none => sql
    pure (sql ++ ";")
  | .alterTable node =>
    if node.action = "DROP COLUMN" then
      pure ("ALTER TABLE " ++ node.table ++ " DROP COLUMN " ++
        String.intercalate ", " node.columns ++ ";")
    else pure ("ALTER TABLE " ++ node.table ++ " " ++ node.action ++ ";")

/-- `nl_to_sql` of `pipeline.py`: the full pipeline
text → tokens → AST → SQL. -/
def nl_to_sql (text : String) : Except PyErr String := do
  ast_to_sql (← Parser.parse (tokenize text))

/-! ### Observations used by the claims -/

/-- Kind-and-lexeme view of a token list (positions dropped), the data
the idempotence claim compares. -/
def tokensKV (ts : List Token) : List (TokenType × String) :=
  ts.map (fun t => (t.type, t.value))

/-- The preprocessed text, as `Lexer.text` after `_preprocess`. -/
def preprocessStr (s : String) : String := String.mk (preprocess s.data)

/-- Number of decimal points in a string. -/
def dotCount (s : String) : Nat := (s.data.filter (fun c => c == '.')).length

/-- Classification helpers for parsed values. -/
def Value.isFloat : Value → Bool
  | .floatV _ => true
  | _ => false

/-- True exactly on integer values. -/
def Value.isInt : Value → Bool
  | .intV _ => true
  | _ => false

/-! ### Claim theorems -/

/-- C1, counterexample.  The claim states that
`insert into users values 1, 'John', 25` yields
`INSERT INTO users VALUES (1, 'John', 25);` with the quoted literal
preserved as written.  It does not: `Lexer._preprocess` lowercases the
whole input, quoted literals included. -/
theorem c1_counterexample :
    nl_to_sql "insert into users values 1, 'John', 25" ≠
      Except.ok "INSERT INTO users VALUES (1, 'John', 25);" := by
  decide

/-- C1, amended.  Processing `insert into users values 1, 'John', 25`
through the full pipeline yields
`INSERT INTO users VALUES (1, 'john', 25);`: the shape claimed by the
spec, but with the string literal lowercased by preprocessing rather
than preserved as written. -/
theorem c1_insert_pipeline :
    nl_to_sql "insert into users values 1, 'John', 25" =
      Except.ok "INSERT INTO users VALUES (1, 'john', 25);" := by
  rfl

/-- C2, evaluation at the failing input.  The operator-phrase table is
not ordered longest-phrase-first around the `not equal` family:
`('equal to', '=')` precedes `('not equal to', '!=')` in
`Lexer.OPERATOR_PHRASES`, so `age not equal to 5` tokenizes to
`IDENTIFIER "not"` followed by `EQUALS`, never to the claimed single
`NOT_EQUALS` token. -/
theorem c2_not_equal_phrase_eval :
    tokenize "age not equal to 5" =
      [⟨.IDENTIFIER, "age", 0⟩, ⟨.IDENTIFIER, "not", 4⟩,
       ⟨.EQUALS, "=", 8⟩, ⟨.NUMBER, "5", 10⟩, ⟨.EOF, "", 11⟩] ∧
    ((tokenize "age not equal to 5").all fun t => t.type != .NOT_EQUALS) = true := by
  exact ⟨rfl, rfl⟩

/-- C3, evaluation at the failing input.  Parsing the single token
`FIND` succeeds (`Parser._parse_find` makes both the table and the
WHERE clause optional) and returns a `SelectNode` whose `table` is
Python `None`, violating the claimed non-empty-table invariant. -/
theorem c3_find_table_none :
    parse "find" =
      Except.ok (.select { columns := [some "*"], table := none,
                           whereClause := none, order_by := none,
                           group_by := none, distinct := false,
                           aggregate := none }) := by
  rfl

/-- C6, counterexample.  `Lexer._read_number` consumes any run of
digits and dots, so the NUMBER lexeme `1.2.3` reaches
`Parser._parse_value`, where Python `float('1.2.3')` raises
`ValueError` — not the `ParseError` the claim allows. -/
theorem c6_counterexample :
    nl_to_sql "select users where x = 1.2.3" =
      Except.error (.valueError "could not convert string to float: '1.2.3'") := by
  rfl

/-- C7.  Condition rendering is asymmetric: `And` renders without
parentheses, `Or` always with them (`condition_to_sql`). -/
theorem c7_and_or_rendering :
    ∀ left right : ConditionNode,
      condition_to_sql (.and left right) =
        condition_to_sql left ++ " AND " ++ condition_to_sql right ∧
      condition_to_sql (.or left right) =
        "(" ++ condition_to_sql left ++ " OR " ++ condition_to_sql right ++ ")" :=
  fun _ _ => ⟨rfl, rfl⟩

/-- C8.  A `Like` pattern is wrapped in `%...%` exactly when it
contains no `%`, rendered `<col> LIKE '<pattern>'`; in particular the
full pipeline maps `find users where name contains 'an'` to
`SELECT * FROM users WHERE name LIKE '%an%';`. -/
theorem c8_like_wrapping :
    (∀ column pattern : String,
      condition_to_sql (.like column pattern) =
        column ++ " LIKE '" ++
          (if pattern.data.contains '%' then pattern else "%" ++ pattern ++ "%") ++ "'") ∧
    nl_to_sql "find users where name contains 'an'" =
      Except.ok "SELECT * FROM users WHERE name LIKE '%an%';" :=
  ⟨fun _ _ => rfl, rfl⟩

/-- C9, counterexample.  Tokenizing the already-preprocessed text is
not always the same as tokenizing the raw input: in `greater  than`
(two spaces) no operator phrase matches, and whitespace collapsing then
creates the phrase, so the second tokenization finds `>` where the
first produced two identifiers. -/
theorem c9_counterexample :
    tokensKV (tokenize (preprocessStr "greater  than")) ≠
      tokensKV (tokenize "greater  than") := by
  decide

/-- C9, amended.  Tokenizing the preprocessed text yields the same
token sequence as tokenizing the raw input whenever preprocessing is
idempotent on that input, i.e. whenever re-preprocessing changes
nothing (which whitespace collapsing can defeat, as the counterexample
shows). -/
theorem c9_idempotent_when_preprocess_fixed (s : String)
    (h : preprocess (preprocess s.data) = preprocess s.data) :
    tokensKV (tokenize (preprocessStr s)) = tokensKV (tokenize s) := by
  unfold tokenize preprocessStr
  rw [show (String.mk (preprocess s.data)).data = preprocess s.data from rfl, h]

/-- C9, witness for the amended statement at a concrete input. -/
theorem c9_witness :
    preprocess (preprocess "select users where age > 20".data) =
        preprocess "select users where age > 20".data ∧
      tokensKV (tokenize (preprocessStr "select users where age > 20")) =
        tokensKV (tokenize "select users where age > 20") :=
  ⟨by decide, c9_idempotent_when_preprocess_fixed "select users where age > 20" (by decide)⟩

/-- C10.  Operator-phrase substitution is plain substring replacement
with no word-boundary check: the single word `equality` contains the
phrase `equal`, so it tokenizes to the `EQUALS` operator followed by an
`IDENTIFIER` holding the residual letters `ity`, not to one
identifier. -/
theorem c10_substring_replacement :
    tokenize "equality" =
      [⟨.EQUALS, "=", 1⟩, ⟨.IDENTIFIER, "ity", 3⟩, ⟨.EOF, "", 6⟩] := by
  rfl

/-! ### Lexer invariants -/

/-- Every type in the keyword table is a keyword kind: in particular
never `UNKNOWN` and never `NUMBER`. -/
theorem keywordOf_kinds (w : String) :
    keywordOf w ≠ .UNKNOWN ∧ keywordOf w ≠ .NUMBER := by
  unfold keywordOf
  cases h : KEYWORDS.find? (fun p => p.1 == w) with
  | none => simp
  | some p =>
    have hmem := List.mem_of_find?_eq_some h
    have hall : ∀ q ∈ KEYWORDS, q.2 ≠ TokenType.UNKNOWN ∧ q.2 ≠ TokenType.NUMBER := by
      decide
    simpa using hall p hmem

/-- `Lexer._read_operator` never produces a `NUMBER` token. -/
theorem read_operator_not_number (cs : List Char) (pos : Nat) :
    (read_operator cs pos).1.type ≠ .NUMBER := by
  unfold read_operator
  cases cs with
  | nil => simp
  | cons c rest =>
    dsimp only
    split_ifs <;> try simp
    cases h : single_char_operators.find? (fun p => p.1 == c) with
    | none => simp
    | some p =>
      have hmem := List.mem_of_find?_eq_some h
      have hall : ∀ q ∈ single_char_operators, q.2 ≠ TokenType.NUMBER := by decide
      simpa using hall p hmem

/-- A `takeWhile` run satisfies its predicate throughout. -/
theorem takeWhile_all {α : Type} (p : α → Bool) :
    ∀ l : List α, ((l.takeWhile p).all p) = true := by
  intro l
  induction l with
  | nil => rfl
  | cons a t ih =>
    by_cases h : p a
    · simp [List.takeWhile_cons, h, ih]
    · simp [List.takeWhile_cons, h]

/-- C5 core: no token produced by the scanning loop is `UNKNOWN`. -/
theorem scanAux_no_unknown (fuel : Nat) :
    ∀ cs pos, ((scanAux fuel cs pos).all fun t => t.type != .UNKNOWN) = true := by
  induction fuel with
  | zero => intro cs pos; rfl
  | succ f ih =>
    intro cs pos
    simp only [scanAux]
    split
    · rfl
    · rename_i c cs1 heq
      split_ifs with h1 h2 h3 h4
      · simp [List.all_cons, ih]
      · split <;> simp [List.all_cons, ih]
      · simp only [List.all_cons, ih, Bool.and_true, bne_iff_ne, ne_eq, decide_eq_true_eq]
        exact (keywordOf_kinds _).1
      · simp only [List.all_cons, ih, Bool.and_true, bne_iff_ne, ne_eq, decide_eq_true_eq]
        exact h4
      · exact ih _ _

/-- C5.  For every input string, `tokenize` terminates (it is a total
function), never raises (it returns a plain token list), and its output
contains no `UNKNOWN` token: unrecognized single characters are
silently dropped by the scanning loop. -/
theorem c5_tokenize_no_unknown (s : String) :
    ((tokenize s).all fun t => t.type != .UNKNOWN) = true :=
  scanAux_no_unknown _ _ _

/-! ### Number-lexeme lemmas (C6) -/

/-- A Python-whitespace character is not an ASCII digit. -/
theorem space_not_digit {x : Char} (h : isPySpace x = true) : isPyDigit x = false := by
  simp only [isPySpace, Bool.or_eq_true, beq_iff_eq] at h
  rcases h with ((((h | h) | h) | h) | h) | h <;> subst h <;> decide

/-- An ASCII digit is not Python whitespace. -/
theorem digit_not_space {x : Char} (h : isPyDigit x = true) : isPySpace x = false := by
  cases hs : isPySpace x with
  | false => rfl
  | true => rw [space_not_digit hs] at h; exact absurd h (by simp)

/-- A number-lexeme character (digit or dot) is not Python whitespace. -/
theorem numChar_not_space {x : Char} (h : isNumChar x = true) : isPySpace x = false := by
  simp only [isNumChar, Bool.or_eq_true, beq_iff_eq] at h
  rcases h with h | h
  · exact digit_not_space h
  · subst h; decide

/-- `dropWhile` is the identity when the predicate fails everywhere. -/
theorem dropWhile_eq_self_of_false {α : Type} (p : α → Bool) (l : List α)
    (h : ∀ x ∈ l, p x = false) : l.dropWhile p = l := by
  cases l with
  | nil => rfl
  | cons a t => simp [List.dropWhile_cons, h a (by simp)]

/-- `pyStrip` is the identity on whitespace-free text. -/
theorem pyStrip_eq_self (l : List Char) (h : ∀ x ∈ l, isPySpace x = false) :
    pyStrip l = l := by
  unfold pyStrip
  rw [dropWhile_eq_self_of_false _ l h,
      dropWhile_eq_self_of_false _ l.reverse (fun x hx => h x (List.mem_reverse.mp hx)),
      List.reverse_reverse]

/-- `takeWhile`/`dropWhile` on an all-true list. -/
theorem takeWhile_eq_self_of_true {α : Type} (p : α → Bool) :
    ∀ l : List α, (∀ x ∈ l, p x = true) → l.takeWhile p = l ∧ l.dropWhile p = [] := by
  intro l
  induction l with
  | nil => exact fun _ => ⟨rfl, rfl⟩
  | cons a t ih =>
    intro h
    have ha := h a (by simp)
    have ht := ih (fun x hx => h x (by simp [hx]))
    simp [List.takeWhile_cons, List.dropWhile_cons, ha, ht.1, ht.2]

/-- The head of a `dropWhile` residue fails the predicate. -/
theorem dropWhile_head_false {α : Type} (p : α → Bool) :
    ∀ (l : List α) (y : α) (t : List α), l.dropWhile p = y :: t → p y = false := by
  intro l
  induction l with
  | nil => intro y t h; simp at h
  | cons a s ih =>
    intro y t h
    rw [List.dropWhile_cons] at h
    by_cases ha : p a = true
    · rw [if_pos ha] at h; exact ih y t h
    · rw [if_neg ha] at h
      cases h
      simpa using ha

/-- Python `int()` succeeds on any non-empty all-digit lexeme. -/
theorem pyIntParse_digits (l : List Char) (hne : l ≠ [])
    (hall : ∀ x ∈ l, isPyDigit x = true) :
    pyIntParse l = some (digitsToNat l : Int) := by
  unfold pyIntParse
  rw [pyStrip_eq_self l (fun x hx => digit_not_space (hall x hx))]
  cases l with
  | nil => exact absurd rfl hne
  | cons x t =>
    have hx := hall x (by simp)
    have hx1 : x ≠ '-' := by intro hcon; subst hcon; exact absurd hx (by decide)
    have hx2 : x ≠ '+' := by intro hcon; subst hcon; exact absurd hx (by decide)
    have hb : (x :: t).all isPyDigit = true := List.all_eq_true.mpr hall
    dsimp only
    split
    · rename_i r heq
      injection heq with h1 h2
      exact absurd h1 hx1
    · rename_i r heq
      injection heq with h1 h2
      exact absurd h1 hx2
    · simp [hb]

/-- Python `float()` accepts any digit-led digits-and-dots lexeme that
contains exactly one dot. -/
theorem pyFloatAccepts_single_dot {c : Char} {cs : List Char}
    (hd : isPyDigit c = true)
    (hall : ((c :: cs).all isNumChar) = true)
    (hone : ((c :: cs).filter (fun x => x == '.')).length ≤ 1)
    (hdot : (c :: cs).contains '.' = true) :
    pyFloatAccepts (c :: cs) = true := by
  have hallm : ∀ x ∈ c :: cs, isNumChar x = true := List.all_eq_true.mp hall
  have hmemdot : ('.' : Char) ∈ c :: cs := List.elem_iff.mp hdot
  unfold pyFloatAccepts
  rw [pyStrip_eq_self _ (fun x hx => numChar_not_space (hallm x hx))]
  have hplus : (c == '+') = false := by
    cases hbeq : c == '+' with
    | false => rfl
    | true => exact absurd hd (by rw [eq_of_beq hbeq]; decide)
  have hminus : (c == '-') = false := by
    cases hbeq : c == '-' with
    | false => rfl
    | true => exact absurd hd (by rw [eq_of_beq hbeq]; decide)
  dsimp only
  rw [hplus, hminus]
  simp only [Bool.or_false, Bool.false_eq_true, if_false]
  -- decompose into leading digits, the dot, and the tail
  have hsplit := List.takeWhile_append_dropWhile (p := isPyDigit) (l := c :: cs)
  have hrest_ne : List.dropWhile isPyDigit (c :: cs) ≠ [] := by
    intro hnil
    have htw_all : List.takeWhile isPyDigit (c :: cs) = c :: cs := by
      rw [hnil, List.append_nil] at hsplit; exact hsplit
    have hdotmem_tw : ('.' : Char) ∈ List.takeWhile isPyDigit (c :: cs) := by
      rw [htw_all]; exact hmemdot
    exact absurd (List.mem_takeWhile_imp hdotmem_tw) (by decide)
  obtain ⟨y, d2, hy⟩ := List.exists_cons_of_ne_nil hrest_ne
  have hy_not_digit : isPyDigit y = false := dropWhile_head_false _ _ _ _ hy
  have hy_mem : y ∈ c :: cs := (List.dropWhile_sublist (p := isPyDigit)).subset (by rw [hy]; simp)
  have hy_dot : y = '.' := by
    have hnum := hallm y hy_mem
    simp only [isNumChar, Bool.or_eq_true, beq_iff_eq] at hnum
    rcases hnum with h | h
    · rw [h] at hy_not_digit; cases hy_not_digit
    · exact h
  subst hy_dot
  have heq : c :: cs = List.takeWhile isPyDigit (c :: cs) ++ '.' :: d2 := by
    rw [← hy, hsplit]
  -- no dot in the tail, hence all digits there
  have hd2_nodot : ∀ x ∈ d2, (x == '.') = false := by
    intro x hx
    cases hxe : (x == '.') with
    | false => rfl
    | true =>
      exfalso
      have hxd : x = '.' := eq_of_beq hxe
      subst hxd
      have hmemf : ('.' : Char) ∈ d2.filter (fun z => z == '.') :=
        List.mem_filter.mpr ⟨hx, by simp⟩
      have hlen2 : 2 ≤ ((c :: cs).filter (fun z => z == '.')).length := by
        rw [heq, List.filter_append]
        have h1 : List.filter (fun z => z == '.') ('.' :: d2) =
            '.' :: List.filter (fun z => z == '.') d2 := by simp
        rw [h1]
        have := List.length_pos_of_mem hmemf
        simp only [List.length_append, List.length_cons]
        omega
      omega
  have hd2_digit : ∀ x ∈ d2, isPyDigit x = true := by
    intro x hx
    have hmem : x ∈ c :: cs := by rw [heq]; simp [hx]
    have hnum := hallm x hmem
    simp only [isNumChar, Bool.or_eq_true] at hnum
    rcases hnum with h | h
    · exact h
    · rw [hd2_nodot x hx] at h; cases h
  -- evaluate the float-literal body checker
  have htw_cons : List.takeWhile isPyDigit (c :: cs) = c :: List.takeWhile isPyDigit cs := by
    rw [List.takeWhile_cons, if_pos hd]
  have hd2tw := takeWhile_eq_self_of_true isPyDigit d2 hd2_digit
  unfold floatBodyOk takeDigits
  dsimp only
  rw [hy, htw_cons]
  simp [hd2tw.1, hd2tw.2, floatExponentOk, takeDigits]

/-- NUMBER lexemes produced by the scanner are non-empty, digit-led,
and consist of digits and dots only (`Lexer._read_number`). -/
theorem scanAux_number_shape (fuel : Nat) :
    ∀ cs pos t, t ∈ scanAux fuel cs pos → t.type = .NUMBER →
      ∃ c cs', t.value.data = c :: cs' ∧ isPyDigit c = true ∧
        ((c :: cs').all isNumChar) = true := by
  induction fuel with
  | zero => intro cs pos t hmem; simp [scanAux] at hmem
  | succ f ih =>
    intro cs pos t hmem hty
    simp only [scanAux] at hmem
    split at hmem
    · simp only [List.mem_singleton] at hmem
      subst hmem
      simp at hty
    · rename_i c cs1 heq
      rw [heq] at hmem
      split_ifs at hmem with h1 h2 h3 h4
      · rcases List.mem_cons.mp hmem with hhd | htl
        · subst hhd
          have hrun : (c :: cs1).takeWhile isNumChar = c :: cs1.takeWhile isNumChar := by
            rw [List.takeWhile_cons, if_pos (by simp [isNumChar, h1])]
          refine ⟨c, cs1.takeWhile isNumChar, ?_, h1, ?_⟩
          · show ((c :: cs1).takeWhile isNumChar) = _
            exact hrun
          · rw [← hrun]
            exact takeWhile_all _ _
        · exact ih _ _ _ htl hty
      · split at hmem
        · rcases List.mem_cons.mp hmem with hhd | htl
          · subst hhd; simp at hty
          · exact ih _ _ _ htl hty
        · rcases List.mem_cons.mp hmem with hhd | htl
          · subst hhd; simp at hty
          · exact ih _ _ _ htl hty
      · rcases List.mem_cons.mp hmem with hhd | htl
        · subst hhd
          dsimp only at hty
          exact absurd hty (keywordOf_kinds _).2
        · exact ih _ _ _ htl hty
      · rcases List.mem_cons.mp hmem with hhd | htl
        · subst hhd
          exact absurd hty (read_operator_not_number _ _)
        · exact ih _ _ _ htl hty
      · exact ih _ _ _ hmem hty

/-- C6, amended.  For every NUMBER token the tokenizer produces whose
lexeme has at most one decimal point, parsing it as a value succeeds
with no error at all, and yields a floating value exactly when the
lexeme contains a decimal point and an integer value otherwise.  (The
unamended claim fails because the lexer can emit lexemes with several
dots, e.g. `1.2.3`, on which `float()` raises `ValueError` — see the
counterexample.) -/
theorem c6_number_classification (s : String) (rest : List Token) (t : Token)
    (hmem : t ∈ tokenize s) (hty : t.type = .NUMBER)
    (hone : dotCount t.value ≤ 1) :
    ∃ v, Parser.parse_value (t :: rest) = .ok (v, rest) ∧
      v.isFloat = t.value.data.contains '.' ∧
      v.isInt = !(t.value.data.contains '.') := by
  obtain ⟨c, cs, hdata, hd, hall⟩ := scanAux_number_shape _ _ _ t hmem hty
  unfold Parser.parse_value
  simp only [Parser.cur, List.headD_cons, Parser.advance, List.tail_cons]
  rw [if_pos hty]
  by_cases hc : t.value.data.contains '.' = true
  · rw [if_pos hc]
    have hacc : pyFloatAccepts t.value.data = true := by
      rw [hdata]
      refine pyFloatAccepts_single_dot hd hall ?_ ?_
      · have h1 := hone
        unfold dotCount at h1
        rw [hdata] at h1
        exact h1
      · rw [← hdata]; exact hc
    rw [if_pos hacc]
    refine ⟨.floatV t.value, rfl, ?_, ?_⟩
    · rw [hc]; rfl
    · rw [hc]; rfl
  · have hc' : t.value.data.contains '.' = false := by
      cases h : t.value.data.contains '.' with
      | false => rfl
      | true => exact absurd h hc
    rw [if_neg hc]
    have halld : ∀ x ∈ t.value.data, isPyDigit x = true := by
      intro x hx
      have hnum : isNumChar x = true := by
        rw [hdata] at hx
        exact List.all_eq_true.mp hall x hx
      simp only [isNumChar, Bool.or_eq_true, beq_iff_eq] at hnum
      rcases hnum with h | h
      · exact h
      · subst h
        exact absurd (List.elem_iff.mpr hx) hc
    rw [pyIntParse_digits t.value.data (by rw [hdata]; simp) halld]
    refine ⟨.intV (digitsToNat t.value.data : Int), rfl, ?_, ?_⟩
    · rw [hc']; rfl
    · rw [hc']; rfl

/-- C6, witness: the NUMBER token `1.5` of `x = 1.5` parses to a
floating value with no error. -/
theorem c6_witness :
    (⟨.NUMBER, "1.5", 4⟩ : Token) ∈ tokenize "x = 1.5" ∧
    dotCount "1.5" ≤ 1 ∧
    (∃ v, Parser.parse_value [(⟨.NUMBER, "1.5", 4⟩ : Token)] = .ok (v, []) ∧
      v.isFloat = "1.5".data.contains '.' ∧
      v.isInt = !("1.5".data.contains '.')) :=
  ⟨by decide, by decide,
   c6_number_classification "x = 1.5" [] ⟨.NUMBER, "1.5", 4⟩ (by decide) rfl (by decide)⟩

/-! ### Condition-parsing lemmas (C4) -/

/-- A token type with a comparison-operator mapping is none of the
special condition keywords. -/
theorem op_map_not_special {tt : TokenType} {w : String}
    (h : Parser.op_map tt = some w) :
    tt ≠ .BETWEEN ∧ tt ≠ .IN ∧ tt ≠ .LIKE ∧ tt ≠ .CONTAINS := by
  cases tt <;> simp_all [Parser.op_map]

/-- `Parser._parse_simple_condition` on a plain comparison
`<column> <op> <value>` consumes exactly those three tokens. -/
theorem parse_simple_condition_step (c : String) (p : Nat) (o v : Token)
    (w : String) (x : Value) (rest : List Token)
    (ho : Parser.op_map o.type = some w)
    (hv : ∀ r, Parser.parse_value (v :: r) = .ok (x, r)) :
    Parser.parse_simple_condition (⟨.IDENTIFIER, c, p⟩ :: o :: v :: rest) =
      .ok (.simple c w x, rest) := by
  obtain ⟨hB, hI, hL, hC⟩ := op_map_not_special ho
  unfold Parser.parse_simple_condition Parser.parse_operator
  simp [Parser.cur, Parser.advance, ho, hv, hB, hI, hL, hC, Except.bind, bind, pure,
        Except.pure]

/-- One `AND`/`OR` iteration of the condition loop over a plain
comparison. -/
theorem cond_loop_op_step (fuel : Nat) (left : ConditionNode) (c : String)
    (p : Nat) (a o v : Token) (w : String) (x : Value) (rest : List Token)
    (hao : a.type = .AND ∨ a.type = .OR)
    (ho : Parser.op_map o.type = some w)
    (hv : ∀ r, Parser.parse_value (v :: r) = .ok (x, r)) :
    Parser.cond_loop (fuel + 1) left (a :: ⟨.IDENTIFIER, c, p⟩ :: o :: v :: rest) =
      Parser.cond_loop fuel
        (if a.type = .AND then .and left (.simple c w x) else .or left (.simple c w x))
        rest := by
  simp only [Parser.cond_loop, Parser.cur, List.headD_cons, Parser.advance, List.tail_cons]
  rw [if_pos hao, parse_simple_condition_step c p o v w x rest ho hv]
  dsimp only
  by_cases hA : a.type = .AND
  · rw [if_pos hA, if_pos hA]
  · rw [if_neg hA, if_neg hA]

/-- The condition loop stops on any token that is neither `AND` nor
`OR`. -/
theorem cond_loop_exit (fuel : Nat) (left : ConditionNode) (ts : List Token)
    (h1 : (Parser.cur ts).type ≠ .AND) (h2 : (Parser.cur ts).type ≠ .OR) :
    Parser.cond_loop (fuel + 1) left ts = .ok (left, ts) := by
  simp only [Parser.cond_loop]
  rw [if_neg (by
    intro hor
    rcases hor with h | h
    · exact h1 h
    · exact h2 h)]

/-- C4.  Compound conditions fold left-to-right with no precedence:
for any three simple conditions `A`, `B`, `C` (each a column, a
comparison operator, and a value token), parsing `A AND B OR C`
produces an `Or` root whose left child is `And(A, B)` and whose right
child is `C`. -/
theorem c4_and_or_left_fold
    (c1 c2 c3 : String) (p1 p2 p3 : Nat) (a b e o1 o2 o3 v1 v2 v3 : Token)
    (w1 w2 w3 : String) (x1 x2 x3 : Value)
    (ha : a.type = .AND) (hb : b.type = .OR) (he : e.type = .EOF)
    (ho1 : Parser.op_map o1.type = some w1)
    (ho2 : Parser.op_map o2.type = some w2)
    (ho3 : Parser.op_map o3.type = some w3)
    (hv1 : ∀ r, Parser.parse_value (v1 :: r) = .ok (x1, r))
    (hv2 : ∀ r, Parser.parse_value (v2 :: r) = .ok (x2, r))
    (hv3 : ∀ r, Parser.parse_value (v3 :: r) = .ok (x3, r)) :
    Parser.parse_condition
      [⟨.IDENTIFIER, c1, p1⟩, o1, v1, a, ⟨.IDENTIFIER, c2, p2⟩, o2, v2, b,
       ⟨.IDENTIFIER, c3, p3⟩, o3, v3, e] =
      .ok (.or (.and (.simple c1 w1 x1) (.simple c2 w2 x2)) (.simple c3 w3 x3),
           [e]) := by
  unfold Parser.parse_condition
  rw [parse_simple_condition_step c1 p1 o1 v1 w1 x1 _ ho1 hv1]
  show Parser.cond_loop (9 + 1) (.simple c1 w1 x1)
      [a, ⟨.IDENTIFIER, c2, p2⟩, o2, v2, b, ⟨.IDENTIFIER, c3, p3⟩, o3, v3, e] = _
  rw [cond_loop_op_step 9 _ c2 p2 a o2 v2 w2 x2 _ (Or.inl ha) ho2 hv2, if_pos ha]
  show Parser.cond_loop (8 + 1) _ [b, ⟨.IDENTIFIER, c3, p3⟩, o3, v3, e] = _
  rw [cond_loop_op_step 8 _ c3 p3 b o3 v3 w3 x3 _ (Or.inr hb) ho3 hv3,
      if_neg (by rw [hb]; intro hcon; cases hcon)]
  show Parser.cond_loop (7 + 1) _ [e] = _
  rw [cond_loop_exit 7 _ _ (by simp [Parser.cur, he]) (by simp [Parser.cur, he])]

/-- C4, witness: `a = 1 AND b = 2 OR c = 3` at concrete tokens. -/
theorem c4_witness :
    Parser.parse_condition
      [⟨.IDENTIFIER, "a", 0⟩, ⟨.EQUALS, "=", 2⟩, ⟨.NUMBER, "1", 4⟩,
       ⟨.AND, "and", 6⟩, ⟨.IDENTIFIER, "b", 10⟩, ⟨.EQUALS, "=", 12⟩,
       ⟨.NUMBER, "2", 14⟩, ⟨.OR, "or", 16⟩, ⟨.IDENTIFIER, "c", 19⟩,
       ⟨.EQUALS, "=", 21⟩, ⟨.NUMBER, "3", 23⟩, ⟨.EOF, "", 24⟩] =
      .ok (.or (.and (.simple "a" "=" (.intV 1)) (.simple "b" "=" (.intV 2)))
               (.simple "c" "=" (.intV 3)),
           [⟨.EOF, "", 24⟩]) :=
  c4_and_or_left_fold "a" "b" "c" 0 10 19
    ⟨.AND, "and", 6⟩ ⟨.OR, "or", 16⟩ ⟨.EOF, "", 24⟩
    ⟨.EQUALS, "=", 2⟩ ⟨.EQUALS, "=", 12⟩ ⟨.EQUALS, "=", 21⟩
    ⟨.NUMBER, "1", 4⟩ ⟨.NUMBER, "2", 14⟩ ⟨.NUMBER, "3", 23⟩
    "=" "=" "=" (.intV 1) (.intV 2) (.intV 3)
    rfl rfl rfl rfl rfl rfl
    (fun _ => rfl) (fun _ => rfl) (fun _ => rfl)
